import Mathlib

/-!
Verification development for the radiometric-measurement stage controller
(`Skripts/radiometric_measurement.py`, class `ScanSurface`).

The Python code is shallowly embedded: numeric literals written as floats in
the source (0.39, 0.195, 333.33, 0.2, 0.5, 0.1) are modelled as the exact
rationals they denote; `queue.Queue` is modelled by its item count and its
`unfinished_tasks` counter, with the CPython semantics of `put`, `task_done`
(raises ValueError when the counter would go negative) and `join` (returns
exactly when the counter is zero); hardware commands (stepper motions, brakes,
digital-input reads) are recorded as an explicit effect trace; Python's `is`
on small interned literals (status strings, small ints) is modelled as
structural equality, which is what CPython computes for them.
-/

/-- Decidable equality of `Except` results, used to evaluate the embedded
fallible methods on concrete inputs. -/
instance {ε α : Type} [DecidableEq ε] [DecidableEq α] : DecidableEq (Except ε α)
  | .error e, .error f =>
    if h : e = f then .isTrue (by rw [h]) else .isFalse (by simp [h])
  | .error _, .ok _ => .isFalse (by simp)
  | .ok _, .error _ => .isFalse (by simp)
  | .ok a, .ok b =>
    if h : a = b then .isTrue (by rw [h]) else .isFalse (by simp [h])

/-- A Python runtime value, as far as the embedded methods need one. -/
inductive PyVal where
  | str (s : String)
  | intV (n : Int)
  | boolV (b : Bool)
  | noneV
deriving DecidableEq

/-- Python truthiness for the modelled values. -/
def truthy : PyVal → Bool
  | .str s => !s.isEmpty
  | .intV n => n != 0
  | .boolV b => b
  | .noneV => false

/-- Python `is` between the modelled values.  The statuses and masks compared
with `is` in the source are small interned literals, for which CPython's `is`
coincides with equality. -/
def pyIs (a b : PyVal) : Bool := a == b

/-- Python string concatenation `a + v`: a `TypeError` unless `v` is a str. -/
def pyStrAdd (a : String) (v : PyVal) : Except String String :=
  match v with
  | .str b => .ok (a ++ b)
  | _ => .error "TypeError: can only concatenate str"

/-- Python `int()` applied to a rational: truncation toward zero (the
numerator/denominator quotient of the reduced fraction, with Lean's `Int`
division rounding toward zero). -/
def pyInt (q : ℚ) : Int := q.num / (q.den : Int)

/-- A CPython `queue.Queue`, reduced to the two counters the code observes:
`items` is what `qsize()` returns, `unfinished` is `unfinished_tasks`
(incremented by `put`, decremented by `task_done`, awaited by `join`). -/
structure PyQueue where
  items : Nat
  unfinished : Int
deriving DecidableEq

/-- Python `Queue.put`: enqueues an item and increments `unfinished_tasks`. -/
def PyQueue.put (q : PyQueue) : PyQueue := ⟨q.items + 1, q.unfinished + 1⟩

/-- Python `Queue.task_done`: raises `ValueError` when more `task_done` calls than
`put` calls have been made (the counter would go negative), else decrements. -/
def PyQueue.task_done (q : PyQueue) : Except String PyQueue :=
  if q.unfinished - 1 < 0 then .error "task_done() called too many times"
  else .ok ⟨q.items, q.unfinished - 1⟩

/-- Python `Queue.join` blocks while `unfinished_tasks` is nonzero; it returns to the
caller exactly when the counter is zero. -/
def PyQueue.join_returns (q : PyQueue) : Prop := q.unfinished = 0

/-- The queue as freshly constructed. -/
def emptyQ : PyQueue := ⟨0, 0⟩

/-- The `home_queue` right after `__init__`: three `put(None)` calls. -/
def homeQ3 : PyQueue := ⟨3, 3⟩

/-- One observable hardware / console action issued by the embedded methods. -/
inductive Eff where
  | print (s : String)
  | logMsg (s : String)
  | s1SetMaxVel (v : Int)
  | s2SetMaxVel (v : Int)
  | s1SetSteps (n : Int)
  | s2SetSteps (n : Int)
  | s3SetSteps (n : Int)
  | s1FullBrake
  | s2FullBrake
  | s3FullBrake
  | s1Enable
  | s2Enable
  | s3Enable
  | s3Disable
  | s3DriveForward
  | s1SetCurPos (n : Int)
  | s2SetCurPos (n : Int)
  | s3SetCurPos (n : Int)
  | sleep (sec : ℚ)
  | s1Join
  | s2Join
  | measureJoin
  | measure (x y : ℚ)
deriving DecidableEq

/-- Holds on the effects that command a motor (motion, brake, enable/disable,
velocity or position-register writes); `false` on console, sleep, queue-join
and spectrometer effects. -/
def motorCmd : Eff → Bool
  | .print _ => false
  | .logMsg _ => false
  | .sleep _ => false
  | .s1Join => false
  | .s2Join => false
  | .measureJoin => false
  | .measure _ _ => false
  | _ => true

/-- Holds exactly on spectrometer-measurement effects. -/
def measureCmd : Eff → Bool
  | .measure _ _ => true
  | .measureJoin => true
  | _ => false

/-- The mutable `ScanSurface` attributes touched by the embedded methods.
Stepper positions are the `get_current_position()` registers (integer steps);
they are changed by `set_current_position`, while `set_steps` is an
asynchronous motion command recorded only as an effect. -/
structure MState where
  status : PyVal
  bool_home_x : Bool
  bool_home_y : Bool
  bool_home_z : Bool
  z_is_homed : Bool
  should_home : Bool
  home_counter : Nat
  home_counter2 : Nat
  home_queue : PyQueue
  s1_queue : PyQueue
  s2_queue : PyQueue
  measure_queue : PyQueue
  goto_queue : PyQueue
  s1_pos : Int
  s2_pos : Int
  s3_pos : Int
deriving DecidableEq

/-- The attribute values established by `__init__` (before any hardware use). -/
def baseSt : MState :=
  { status := .str "idle"
    bool_home_x := false
    bool_home_y := false
    bool_home_z := false
    z_is_homed := false
    should_home := false
    home_counter := 0
    home_counter2 := 0
    home_queue := homeQ3
    s1_queue := emptyQ
    s2_queue := emptyQ
    measure_queue := emptyQ
    goto_queue := emptyQ
    s1_pos := 0
    s2_pos := 0
    s3_pos := 0 }

/-- Line 611: `step_pos_1 = 333.33 * (x_pos + y_pos)`. -/
def step_pos_1 (x y : ℚ) : ℚ := 33333/100 * (x + y)

/-- Line 612: `step_pos_2 = 333.33 * (x_pos - y_pos)`. -/
def step_pos_2 (x y : ℚ) : ℚ := 33333/100 * (x - y)

/-- Method `get_position` (lines 537-541): inverts the corner-kinematics transform
from the two stepper position registers, in cm. -/
def get_position (p1 p2 : ℚ) : ℚ × ℚ :=
  ((1/2 * (p1 + p2)) / (33333/100), (1/2 * (p1 - p2)) / (33333/100))

/-- Method `goto_position_inqueue` (lines 605-618): puts one pending token on each
axis queue and commands both steppers with the relative steps toward the
corner-kinematics target.  The trailing `if round(...) == 0.39 ...` has `pass`
in both branches and is dropped. -/
def goto_position_inqueue (st : MState) (x y : ℚ) : MState × List Eff :=
  ({ st with s1_queue := st.s1_queue.put, s2_queue := st.s2_queue.put },
   [Eff.s1SetSteps (pyInt (step_pos_1 x y - st.s1_pos)),
    Eff.s2SetSteps (pyInt (step_pos_2 x y - st.s2_pos))])

/-- Method `goto_position` (lines 620-635): manual motion, accepted only in status
`idle`; otherwise prints `not in idle mode` and does nothing. -/
def goto_position (st : MState) (x y : ℚ) : MState × List Eff :=
  if st.status = PyVal.str "idle" then
    (st,
     [Eff.s1SetMaxVel 2000, Eff.s2SetMaxVel 2000,
      Eff.s1SetSteps (pyInt (step_pos_1 x y - st.s1_pos)),
      Eff.s2SetSteps (pyInt (step_pos_2 x y - st.s2_pos)),
      Eff.sleep (1/10)])
  else
    (st, [Eff.print "not in idle mode"])

/-- The guard of `change_status` (line 430):
`if string is 'idle' or 'measuring' or 'homing'`.  By Python precedence this
is `(string is 'idle') or 'measuring' or 'homing'`, whose truthiness includes
the nonempty literal `'measuring'`. -/
def change_status_guard (v : PyVal) : Bool :=
  truthy (.boolV (pyIs v (.str "idle"))) ||
  truthy (.str "measuring") || truthy (.str "homing")

/-- The accept branch of `change_status` (lines 431-432): builds and logs the
transition message (string concatenation, so a `TypeError` for a non-str
argument), then assigns `self.status = string`.  Returns the new status and
the emitted message. -/
def change_status_accept (status v : PyVal) : Except String (PyVal × String) :=
  match pyStrAdd "Status changed from " status with
  | .error e => .error e
  | .ok m1 =>
    match pyStrAdd (m1 ++ " to ") v with
    | .error e => .error e
    | .ok m2 => .ok (v, m2)

/-- Method `change_status` (lines 428-436).  The result pairs the status attribute
after the call with the console/log message produced. -/
def change_status (status v : PyVal) : Except String (PyVal × String) :=
  if change_status_guard v then change_status_accept status v
  else
    match v with
    | .str s => .ok (status, "Wrong keyword for change_status: " ++ s)
    | _ => .ok (status, "Wrong type for change_status")

/-- The guard of `home` (lines 750-753):
`if self.home_queue.qsize() <= 3 > 0: pass elif self.home_queue.qsize() == 0:
raise Exception(...)`.  The chained comparison makes the first branch
`qsize() <= 3`, which subsumes `qsize() == 0`, so the raise is dead code. -/
def home_guard (q : PyQueue) : Except String Unit :=
  if q.items ≤ 3 then .ok ()
  else if q.items = 0 then
    .error "Already homed. Do you want to home again? Then reset the home queue by reset_home_queue()."
  else .ok ()

/-- The effects `home` issues before dispatching on the port value
(lines 755-759). -/
def homePre (port : Nat) : List Eff :=
  [Eff.print ("home function sees: " ++ toString port),
   Eff.s1SetMaxVel 2000, Eff.s2SetMaxVel 2000, Eff.s1Enable, Eff.s2Enable]

/-- Method `home` (lines 748-781).  `port` is the value `self.io16.get_port("a")`
returns; the source re-reads the port in every `elif`, which is modelled as
one stable snapshot. -/
def home (st : MState) (port : Nat) : Except String (MState × List Eff) :=
  match home_guard st.home_queue with
  | .error e => .error e
  | .ok _ =>
    if port = 255 then
      .ok ({ st with bool_home_y := true },
           homePre port ++
           [Eff.logMsg "--------------------homing y process started--------------------",
            Eff.s1SetSteps (-100000), Eff.s2SetSteps 100000])
    else if port = 253 then
      .ok ({ st with bool_home_x := true },
           homePre port ++
           [Eff.logMsg "--------------------homing x process started--------------------",
            Eff.s1SetSteps (-100000), Eff.s2SetSteps (-100000)])
    else if port = 252 then
      .ok ({ st with bool_home_z := true },
           homePre port ++
           [Eff.logMsg "--------------------homing z process started--------------------",
            Eff.s3DriveForward])
    else if port = 248 then
      .ok (st, homePre port ++ [Eff.logMsg "homing finished"])
    else if port = 251 then
      .ok ({ st with bool_home_z := true },
           homePre port ++
           [Eff.print "only z triggered but not homed, driving backwards",
            Eff.s3SetSteps (-21000)])
    else
      .ok (st, homePre port ++ [Eff.print "should home, but nothing applies"])

/-- The `value_mask == 248` block of `cb_interrupt` (lines 642-655). -/
def cb248 (st : MState) (value_mask : Nat) : Except String (MState × List Eff) :=
  if value_mask = 248 then
    if st.bool_home_z then
      match st.home_queue.task_done with
      | .error e => .error e
      | .ok hq =>
        .ok ({ st with bool_home_z := false, z_is_homed := true, s3_pos := 0,
                       home_queue := hq },
             [Eff.s3FullBrake, Eff.s3Disable, Eff.s3Enable, Eff.s3SetCurPos 0,
              Eff.logMsg "z homed", Eff.print ("q_size: " ++ toString hq.items)])
    else
      .ok (st, [Eff.s3Disable, Eff.logMsg "Z triggered during measurement, stopping"])
  else .ok (st, [])

/-- The `value_mask == 252 and self.bool_home_x` block of `cb_interrupt`
(lines 656-680): brake both XY motors, then retract on first contact or
finalize x-homing on a later contact. -/
def cb252 (st : MState) (value_mask : Nat) : Except String (MState × List Eff) :=
  if value_mask = 252 ∧ st.bool_home_x then
    let head := [Eff.s1FullBrake, Eff.s2FullBrake,
                 Eff.logMsg ("Endstop x triggered, motor stopped, self.current pos:" ++
                             toString st.s1_pos)]
    if st.bool_home_x ∧ st.home_counter2 = 0 then
      .ok (st, head ++
           [Eff.logMsg "home mode, first contact, retracting",
            Eff.s1SetMaxVel 2000, Eff.s2SetMaxVel 2000,
            Eff.s1SetSteps 160, Eff.s2SetSteps 160])
    else if st.bool_home_x ∧ 1 ≤ st.home_counter2 then
      match st.home_queue.task_done with
      | .error e => .error e
      | .ok hq =>
        .ok ({ st with bool_home_x := false, s1_pos := 0, s2_pos := 0,
                       home_queue := hq, should_home := true },
             head ++
             [Eff.logMsg "driving home", Eff.sleep 1,
              Eff.s1SetCurPos 0, Eff.s2SetCurPos 0,
              Eff.logMsg ("self.current pos1:" ++ toString (0 : Int)),
              Eff.logMsg ("self.current pos2:" ++ toString (0 : Int)),
              Eff.logMsg "--------------------homing process x finished--------------------",
              Eff.sleep 1])
    else .ok (st, head)
  else .ok (st, [])

/-- The `value_mask == 253` chain of `cb_interrupt` (lines 682-712): the
y-homing contact handling (retract on first contact — note the second test is
an `if`, not `elif` — finalize on a later contact), and the
`elif bool_home_x and value_mask == 253` bounce-retry for x. -/
def cb253 (st : MState) (value_mask : Nat) : Except String (MState × List Eff) :=
  if value_mask = 253 ∧ st.bool_home_y then
    let head := [Eff.s1FullBrake, Eff.s2FullBrake,
                 Eff.logMsg ("Endstop y triggered, motor stopped, self.current pos:" ++
                             toString st.s1_pos)]
    let retract : List Eff :=
      if st.bool_home_y ∧ st.home_counter = 0 then
        [Eff.logMsg "home mode, first contact, retracting",
         Eff.s1SetMaxVel 2000, Eff.s2SetMaxVel 2000,
         Eff.s1SetSteps 160, Eff.s2SetSteps (-160)]
      else []
    if st.bool_home_y ∧ 0 < st.home_counter then
      match st.home_queue.task_done with
      | .error e => .error e
      | .ok hq =>
        .ok ({ st with bool_home_y := false, s1_pos := 0, s2_pos := 0,
                       home_queue := hq, should_home := true },
             head ++ retract ++
             [Eff.logMsg "driving home", Eff.sleep 1,
              Eff.s1SetCurPos 0, Eff.s2SetCurPos 0,
              Eff.logMsg "--------------------homing process y finished--------------------",
              Eff.sleep 1])
    else .ok (st, head ++ retract)
  else if st.bool_home_x ∧ value_mask = 253 then
    .ok ({ st with home_counter2 := st.home_counter2 + 1 },
         [Eff.logMsg ("X Endstop open while homing (" ++ toString st.home_counter2 ++ ")"),
          Eff.sleep 1,
          Eff.s1SetMaxVel 1000, Eff.s2SetMaxVel 1000,
          Eff.s1SetSteps (-160), Eff.s2SetSteps (-160)])
  else .ok (st, [])

/-- The `value_mask == 255` chain of `cb_interrupt` (lines 714-728): y-homing
bounce retry, the z-endstop opening before y-homing, and the plain
`Z Endstop opened` report. -/
def cb255 (st : MState) (value_mask : Nat) : MState × List Eff :=
  if st.bool_home_y ∧ value_mask = 255 then
    ({ st with home_counter := st.home_counter + 1 },
     [Eff.logMsg ("Y Endstop open while homing (" ++ toString st.home_counter ++ ")"),
      Eff.sleep 1,
      Eff.s1SetMaxVel 1000, Eff.s2SetMaxVel 1000,
      Eff.s1SetSteps (-160), Eff.s2SetSteps 160])
  else if st.bool_home_y = false ∧ st.bool_home_z ∧ value_mask = 255 then
    ({ st with bool_home_z := false, should_home := true },
     [Eff.logMsg "Z Endstop was triggered, opening, then proceeding to home Y",
      Eff.s3FullBrake])
  else if st.bool_home_z = false ∧ st.bool_home_y = false ∧ st.bool_home_x = false ∧
          value_mask = 255 then
    (st, [Eff.logMsg "Z Endstop opened"])
  else (st, [])

/-- Lines 730-732: `if self.should_home: self.should_home = False; self.home()`.
`port` is the digital-input value `home` will read. -/
def cb_home_check (st : MState) (port : Nat) : Except String (MState × List Eff) :=
  if st.should_home then home { st with should_home := false } port
  else .ok (st, [])

/-- Method `cb_interrupt` (lines 637-734), the end-stop interrupt handler.
`value_mask` is the delivered mask; `port` is what a subsequent
`io16.get_port("a")` inside `home` would read. -/
def cb_interrupt (st : MState) (value_mask : Nat) (port : Nat) :
    Except String (MState × List Eff) :=
  let e0 : List Eff :=
    [Eff.print "something triggered", Eff.print ("value mask: " ++ toString value_mask)]
  if st.status = PyVal.str "homing" then
    match cb248 st value_mask with
    | .error e => .error e
    | .ok (st, eA) =>
      match cb252 st value_mask with
      | .error e => .error e
      | .ok (st, eB) =>
        match cb253 st value_mask with
        | .error e => .error e
        | .ok (st, eC) =>
          let (st, eD) := cb255 st value_mask
          match cb_home_check st port with
          | .error e => .error e
          | .ok (st, eE) => .ok (st, e0 ++ eA ++ eB ++ eC ++ eD ++ eE)
  else
    match pyStrAdd "Endstop hit while Status" st.status with
    | .error e => .error e
    | .ok m => .ok (st, e0 ++ [Eff.logMsg m])

/-- Line 738 of `reset_home_queue` compares the bound method object
`self.home_queue.qsize` (not `qsize()`) to `3` with `is`: always `False`. -/
def qsize_is_3 : Bool := false

/-- Method `reset_home_queue` (lines 736-746): the dead guard, then
`for i in range(0, qsize()): task_done()` followed by three `put(None)`. -/
def reset_home_queue (q : PyQueue) : Except String PyQueue :=
  if qsize_is_3 then .error "home_queue is already 3"
  else
    match (List.range q.items).foldlM (fun acc _ => acc.task_done) q with
    | .error e => .error e
    | .ok q1 => .ok q1.put.put.put

/-- An entry of `goto_queue` as the scan producer puts them: `None`, the
string `'end'`, or a `[x, y]` position in cm. -/
inductive GItem where
  | noneI
  | endI
  | pos (x y : ℚ)
deriving DecidableEq

/-- One iteration of the `worker` loop body (lines 579-599), for the entry
just dequeued.  Returns the new state, the effects, and whether the loop
continues (`working`). -/
def worker_item (st : MState) (it : GItem) : Except String (MState × List Eff × Bool) :=
  match it with
  | .noneI =>
    match st.goto_queue.task_done with
    | .error e => .error e
    | .ok gq => .ok ({ st with goto_queue := gq }, [Eff.logMsg "item is None"], true)
  | .endI =>
    let (st1, effs) := goto_position_inqueue st (1/5) (1/5)
    match st1.goto_queue.task_done with
    | .error e => .error e
    | .ok gq =>
      .ok ({ st1 with goto_queue := gq }, effs ++ [Eff.s1Join, Eff.s2Join], false)
  | .pos x y =>
    if x = 0 ∧ y = 0 then
      let (st1, effs) := goto_position_inqueue st x y
      match st1.goto_queue.task_done with
      | .error e => .error e
      | .ok gq => .ok ({ st1 with goto_queue := gq }, effs, true)
    else
      let (st1, effs) := goto_position_inqueue st x y
      let st2 := { st1 with measure_queue := st1.measure_queue.put }
      match st2.goto_queue.task_done with
      | .error e => .error e
      | .ok gq =>
        .ok ({ st2 with goto_queue := gq },
             effs ++ [Eff.s1Join, Eff.s2Join, Eff.measure x y, Eff.measureJoin],
             true)

/-- The `while working` loop of `worker`, consuming the listed queue entries
in order until the sentinel stops it (an empty list models the blocking
`goto_queue.get()` with nothing further arriving). -/
def worker_loop (st : MState) : List GItem → Except String (MState × List Eff)
  | [] => .ok (st, [])
  | it :: rest =>
    match worker_item st it with
    | .error e => .error e
    | .ok (st1, effs, cont) =>
      if cont then
        match worker_loop st1 rest with
        | .error e => .error e
        | .ok (st2, effs2) => .ok (st2, effs ++ effs2)
      else .ok (st1, effs)

/-- Method `worker` (lines 573-603): runs the loop only when the status is
`measuring`; for `homing`, `idle` (and any other status) it does nothing. -/
def worker (st : MState) (items : List GItem) : Except String (MState × List Eff) :=
  if st.status = PyVal.str "measuring" then worker_loop st items
  else .ok (st, [])

/-- The `slicelist`/`int_time_list` branch of `__init__` (lines 279-294,
taken when `linspace` and `int_time_linspace` keep their default `False`):
equal lengths initialize `z_queue = deque(slicelist)` and
`int_time_queue = deque(int_time_list)`; a mismatch reports
`slicelist and int_time_list are not matching` and calls `exit()` — modelled
as the error result — before any hardware object exists (hardware is only
created in `connect`). -/
def scan_surface_init_queues (slicelist int_time_list : List ℚ) :
    Except String (List ℚ × List ℚ) :=
  if slicelist.length = int_time_list.length then .ok (slicelist, int_time_list)
  else .error "slicelist and int_time_list are not matching"

/-- One barrier operation on an axis queue: `acquire` is the producer's
`put(None)` (`goto_position_inqueue`), `release` is the completion callback's
`task_done()` (`s1arrived`/`s2arrived`). -/
inductive BOp where
  | acquire
  | release
deriving DecidableEq

/-- Runs a sequence of barrier operations against a queue, with `task_done`
failing fast as in CPython. -/
def runOps : List BOp → PyQueue → Except String PyQueue
  | [], q => .ok q
  | .acquire :: rest, q => runOps rest q.put
  | .release :: rest, q =>
    match q.task_done with
    | .error e => .error e
    | .ok q1 => runOps rest q1

/-- Number of `acquire` operations in a list. -/
def countA (ops : List BOp) : Nat := ops.count .acquire

/-- Number of `release` operations in a list. -/
def countR (ops : List BOp) : Nat := ops.count .release

/-- The grid spacing `0.39` (cm) of the scan-plan loops. -/
def spacing : ℚ := 39/100

/-- One target of the scan plan, `(x, y)` in cm. -/
abbrev Pt := ℚ × ℚ

/-- Method `put_goto_position` (lines 550-552): enqueues one target. -/
def put_goto_position (plan : List Pt) (r t : ℚ) : List Pt := plan ++ [(r, t)]

/-- The inner forward loop of `start_measurement` (lines 936-939):
`for _ in range(k): r += 0.39; put_goto_position(r, t)`. -/
def fwd_inner : Nat → ℚ → ℚ → List Pt → ℚ × List Pt
  | 0, r, _t, plan => (r, plan)
  | k+1, r, t, plan => fwd_inner k (r + spacing) t (put_goto_position plan (r + spacing) t)

/-- The inner reverse loop of `start_measurement` (lines 943-946):
`for _ in range(k): r -= 0.39; put_goto_position(r, t)`. -/
def rev_inner : Nat → ℚ → ℚ → List Pt → ℚ × List Pt
  | 0, r, _t, plan => (r, plan)
  | k+1, r, t, plan => rev_inner k (r - spacing) t (put_goto_position plan (r - spacing) t)

/-- One iteration of the outer `for y_direction in range(N // 2)` loop
(lines 931-946): a forward row then a reversed row. -/
def double_row (x0 : ℚ) (N : Nat) (t : ℚ) (plan : List Pt) : ℚ × ℚ × List Pt :=
  let r0 := spacing + 195/1000 + x0
  let t1 := t + spacing
  let plan1 := put_goto_position plan r0 t1
  let fw := fwd_inner (N - 1) r0 t1 plan1
  let t2 := t1 + spacing
  let plan2 := put_goto_position fw.2 fw.1 t2
  let rv := rev_inner (N - 1) fw.1 t2 plan2
  (rv.1, t2, rv.2)

/-- The outer loop, iterated `N / 2` times.  The first component tracks the
Python local `r`: `none` while it is still unassigned. -/
def outer_loop (x0 : ℚ) (N : Nat) : Nat → Option ℚ × ℚ × List Pt → Option ℚ × ℚ × List Pt
  | 0, acc => acc
  | k+1, acc =>
    let dr := double_row x0 N acc.2.1 acc.2.2
    outer_loop x0 N k (some dr.1, dr.2.1, dr.2.2)

/-- The scan-plan generation block of `start_measurement` (lines 930-957),
with `N = self.measurements`.  When `N` is odd and the outer loop ran zero
times, the final-row block reads the never-assigned local `r`
(`UnboundLocalError` in Python), modelled as `none`. -/
def start_measurement_plan (N : Nat) (x0 y0 : ℚ) : Option (List Pt) :=
  let t0 : ℚ := 195/1000 + y0
  let res := outer_loop x0 N (N / 2) (none, t0, [])
  let ropt := res.1
  let t := res.2.1
  let plan := res.2.2
  if N % 2 = 1 then
    match ropt with
    | none => none
    | some r =>
      let t := t + spacing
      let plan := put_goto_position plan r t
      some (fwd_inner (N - 1) r t plan).2
  else some plan

/-- Modelled from the spec words of the claim: the forward x-sequence of a
serpentine row, starting at `x0 + 1.5 * 0.39` and increasing in steps of
`0.39`. -/
def xs_fwd (x0 : ℚ) (N : Nat) : List ℚ :=
  (List.range N).map (fun (j : ℕ) => x0 + 585/1000 + (j : ℚ) * spacing)

/-- Modelled from the spec words of the claim: the y coordinate of row `i`,
`y0 + 1.5 * 0.39 + i * 0.39`. -/
def row_y (y0 : ℚ) (i : Nat) : ℚ := y0 + 585/1000 + (i : ℚ) * spacing

/-- Modelled from the spec words of the claim: row `i` of the serpentine
plan — the forward x-sequence for even `i`, its exact reverse for odd `i`. -/
def serp_row (x0 y0 : ℚ) (N i : Nat) : List Pt :=
  (if i % 2 = 0 then xs_fwd x0 N else (xs_fwd x0 N).reverse).map
    (fun x => (x, row_y y0 i))

/-- Modelled from the spec words of the claim: the whole serpentine plan,
rows `0 .. N-1` in order. -/
def serp_plan (N : Nat) (x0 y0 : ℚ) : List Pt :=
  (List.range N).flatMap (fun i => serp_row x0 y0 N i)

/-- The list of targets one inner loop emits: `k` points after `r`, stepping
by `d` each time, at height `t`. -/
def row_pts (k : Nat) (r t d : ℚ) : List Pt :=
  match k with
  | 0 => []
  | k+1 => (r + d, t) :: row_pts k (r + d) t d

/-- A forward row of `n` targets starting at `c`, stepping by `spacing`. -/
def rowF (c t : ℚ) (n : Nat) : List Pt :=
  (List.range n).map (fun (j : ℕ) => (c + (j : ℚ) * spacing, t))

/-- A reversed row of `n` targets starting at `c`, stepping by `-spacing`. -/
def rowR (c t : ℚ) (n : Nat) : List Pt :=
  (List.range n).map (fun (j : ℕ) => (c - (j : ℚ) * spacing, t))

/-- The two rows one outer-loop iteration appends, relative to its entry `t`,
for grid size `m + 1`. -/
def pass_rows (x0 t : ℚ) (m : Nat) : List Pt :=
  rowF (spacing + 195/1000 + x0) (t + spacing) (m + 1) ++
  rowR (spacing + 195/1000 + x0 + (m : ℚ) * spacing) (t + spacing + spacing) (m + 1)

/-- A `ScanSurface` state in mid-scan: status `measuring` with two pending
`goto_queue` entries. -/
def scanSt : MState :=
  { baseSt with status := .str "measuring", goto_queue := ⟨2, 2⟩ }

/-! ## Theorems -/

/-- Claim C2 (code_bug evaluation): on a fully homed instance
(`qsize() = 3` — items are never dequeued from `home_queue` — and
`unfinished_tasks = 0`), `reset_home_queue` raises `ValueError` from its very
first `task_done()` instead of restoring the budget, because the guard on
line 738 compares the bound method `qsize` (not `qsize()`) to `3` with `is`
and is therefore always false.  On a freshly constructed (not yet homed)
instance, where the claim demands rejection, the call instead succeeds and
corrupts `qsize()` to `6`. -/
theorem reset_home_queue_code_bug :
    reset_home_queue ⟨3, 0⟩ = .error "task_done() called too many times" ∧
    reset_home_queue ⟨3, 3⟩ = .ok ⟨6, 3⟩ := by
  constructor <;> rfl

/-- Claim C4 (counterexample): the kinematic constant in the code
(line 611) is `333.33`, not `343.33`: at target `(x, y) = (1, 0)` the
axis-1 step target is `333.33`, which differs from `343.33 * (1 + 0)`. -/
theorem corner_kinematics_constant_counterexample :
    step_pos_1 1 0 = 33333/100 ∧ ¬ step_pos_1 1 0 = 34333/100 * (1 + 0) := by
  constructor <;> norm_num [step_pos_1]

/-- Claim C4 (amended, k = 333.33): for every target `(x, y)` the worker's
`goto_position_inqueue` commands the two steppers with the relative steps
toward the corner-kinematics targets `333.33 * (x + y)` and
`333.33 * (x - y)`, and `get_position` is the exact inverse of that
transform. -/
theorem corner_kinematics (st : MState) (x y : ℚ) :
    (goto_position_inqueue st x y).2 =
      [Eff.s1SetSteps (pyInt (33333/100 * (x + y) - st.s1_pos)),
       Eff.s2SetSteps (pyInt (33333/100 * (x - y) - st.s2_pos))] ∧
    get_position (step_pos_1 x y) (step_pos_2 x y) = (x, y) := by
  refine ⟨rfl, ?_⟩
  simp only [get_position, step_pos_1, step_pos_2, Prod.mk.injEq]
  constructor <;> · field_simp; ring

/-- Claim C9: constructing with a `slicelist` and an `int_time_list` of
unequal lengths is fatal (`write_out` of the mismatch, then `exit()`) before
any hardware object exists; with equal lengths the z-queue and
integration-time queue are set from the two lists in order. -/
theorem init_list_length_check (s itl : List ℚ) :
    (s.length = itl.length → scan_surface_init_queues s itl = .ok (s, itl)) ∧
    (s.length ≠ itl.length →
      scan_surface_init_queues s itl =
        .error "slicelist and int_time_list are not matching") := by
  constructor <;> intro h <;> simp [scan_surface_init_queues, h]

/-- Witness for `init_list_length_check` at concrete lists. -/
theorem init_list_length_check_witness :
    scan_surface_init_queues [1] [2] = .ok ([1], [2]) ∧
    scan_surface_init_queues [1] [] =
      .error "slicelist and int_time_list are not matching" :=
  ⟨(init_list_length_check [1] [2]).1 rfl,
   (init_list_length_check [1] []).2 (by decide)⟩

/-- Claim C10 (counterexample): passing the non-string `5` to `change_status`
does take the accept branch (the guard is true), but the string concatenation
in the transition log raises a `TypeError` before `self.status` is assigned,
so the status is not set to that value and no transition is logged. -/
theorem change_status_nonstring_counterexample :
    change_status (.str "idle") (.intV 5) =
      .error "TypeError: can only concatenate str" := by
  rfl

/-- Claim C10 (amended): for every argument the guard of `change_status` is
true — `(string is 'idle') or 'measuring' or 'homing'` contains the truthy
literal `'measuring'` — so the `Wrong type`/`Wrong keyword` rejection branches
are unreachable; every string argument (keyword or not) is logged and becomes
the new status; a non-string argument raises `TypeError` in the log-message
concatenation before the assignment. -/
theorem change_status_always_accepts (status v : PyVal) :
    change_status_guard v = true ∧
    change_status status v = change_status_accept status v ∧
    (∀ s t : String, status = .str s → v = .str t →
      change_status status v =
        .ok (.str t, "Status changed from " ++ s ++ " to " ++ t)) ∧
    (∀ s : String, status = .str s → (∀ t : String, v ≠ .str t) →
      change_status status v = .error "TypeError: can only concatenate str") := by
  have hg : change_status_guard v = true := by
    simp only [change_status_guard, truthy, Bool.or_eq_true]
    left; right; rfl
  refine ⟨hg, by simp [change_status, hg], ?_, ?_⟩
  · rintro s t rfl rfl
    simp [change_status, hg, change_status_accept, pyStrAdd]
  · rintro s rfl hnv
    cases v with
    | str t => exact absurd rfl (hnv t)
    | intV n => simp [change_status, hg, change_status_accept, pyStrAdd]
    | boolV b => simp [change_status, hg, change_status_accept, pyStrAdd]
    | noneV => simp [change_status, hg, change_status_accept, pyStrAdd]

/-- Witness for `change_status_always_accepts`: the non-keyword string
`garbage` is accepted, logged and stored. -/
theorem change_status_always_accepts_witness :
    change_status (.str "idle") (.str "garbage") =
      .ok (.str "garbage", "Status changed from idle to garbage") :=
  (change_status_always_accepts (.str "idle") (.str "garbage")).2.2.1
    "idle" "garbage" rfl rfl

/-- Claim C7: a manual `goto_position` issued in any status other than `idle`
(in particular `measuring`) only prints `not in idle mode`: the state is
unchanged and no velocity change, step command or any other motor command is
issued. -/
theorem goto_position_mode_guard (st : MState) (x y : ℚ)
    (h : st.status ≠ PyVal.str "idle") :
    goto_position st x y = (st, [Eff.print "not in idle mode"]) ∧
    (goto_position st x y).2.filter motorCmd = [] := by
  have h1 : goto_position st x y = (st, [Eff.print "not in idle mode"]) := by
    simp [goto_position, h]
  exact ⟨h1, by rw [h1]; rfl⟩

/-- Witness for `goto_position_mode_guard` with status `measuring`. -/
theorem goto_position_mode_guard_witness :
    goto_position scanSt 1 1 = (scanSt, [Eff.print "not in idle mode"]) :=
  (goto_position_mode_guard scanSt 1 1 (by decide)).1

/-- Claim C3 (counterexample): with status `measuring` and the x end-stop mask
`252` delivered, `cb_interrupt` only logs `Endstop hit while Status...` — the
effect trace contains no full-brake, disable, or any other motor command, so
no motor is halted. -/
theorem cb_interrupt_no_halt_counterexample :
    cb_interrupt scanSt 252 252 =
      .ok (scanSt,
           [Eff.print "something triggered", Eff.print "value mask: 252",
            Eff.logMsg "Endstop hit while Statusmeasuring"]) ∧
    [Eff.print "something triggered", Eff.print "value mask: 252",
     Eff.logMsg "Endstop hit while Statusmeasuring"].filter motorCmd = [] := by
  constructor <;> rfl

/-- Claim C3 (amended): for every end-stop interrupt delivered while the
status is not `homing`, the event is reported — `cb_interrupt` logs
`Endstop hit while Status` plus the status — but no motor is halted: the
state is unchanged and the effect trace contains no motor command at all. -/
theorem cb_interrupt_outside_homing (st : MState) (sname : String)
    (mask port : Nat) (hs : st.status = PyVal.str sname) (hn : sname ≠ "homing") :
    cb_interrupt st mask port =
      .ok (st, [Eff.print "something triggered",
                Eff.print ("value mask: " ++ toString mask),
                Eff.logMsg ("Endstop hit while Status" ++ sname)]) ∧
    [Eff.print "something triggered",
     Eff.print ("value mask: " ++ toString mask),
     Eff.logMsg ("Endstop hit while Status" ++ sname)].filter motorCmd = [] := by
  refine ⟨?_, rfl⟩
  simp [cb_interrupt, hs, hn, pyStrAdd]

/-- Witness for `cb_interrupt_outside_homing` with status `idle`, mask 253. -/
theorem cb_interrupt_outside_homing_witness :
    cb_interrupt baseSt 253 253 =
      .ok (baseSt, [Eff.print "something triggered",
                    Eff.print "value mask: 253",
                    Eff.logMsg "Endstop hit while Statusidle"]) :=
  (cb_interrupt_outside_homing baseSt "idle" 253 253 rfl (by decide)).1

/-- The guard at the top of `home` (lines 750-753) never raises:
`qsize() <= 3 > 0` is the chained comparison `qsize() <= 3 and 3 > 0`, which
covers `qsize() == 0`, so the `Already homed` branch is dead. -/
theorem home_guard_ok (q : PyQueue) : home_guard q = .ok () := by
  unfold home_guard
  split
  · rfl
  · split
    · omega
    · rfl

/-- Claim C5 (counterexample): the port value 251 — not among the four
patterns the claim recognizes — is *not* handled by "log and remain": `home`
sets the Z-homing flag (a state transition) and commands the Z stepper
backwards by 21000 steps. -/
theorem home_mask251_counterexample :
    home baseSt 251 =
      .ok ({ baseSt with bool_home_z := true },
           homePre 251 ++
           [Eff.print "only z triggered but not homed, driving backwards",
            Eff.s3SetSteps (-21000)]) ∧
    ({ baseSt with bool_home_z := true } : MState) ≠ baseSt ∧
    motorCmd (Eff.s3SetSteps (-21000)) = true := by
  refine ⟨rfl, by decide, rfl⟩

/-- Claim C5 (amended): `home` dispatches on the sensor mask read at entry:
255 (all end-stops open) starts Y-homing driving the two XY motors in
opposite directions; 253 (only Y closed) starts X-homing; 252 (X and Y
closed) starts Z-homing driving Z forward; 248 (home-complete signature)
only logs `homing finished` with no further motion; 251 (only Z open… i.e.
the Z end-stop bit low with X/Y open) sets the Z-homing flag and drives Z
backwards; every other pattern causes no state transition — the state is
returned unchanged with only the log `should home, but nothing applies`. -/
theorem home_mask_dispatch (st : MState) (port : Nat) :
    (home st 255 =
      .ok ({ st with bool_home_y := true },
           homePre 255 ++
           [Eff.logMsg "--------------------homing y process started--------------------",
            Eff.s1SetSteps (-100000), Eff.s2SetSteps 100000])) ∧
    (home st 253 =
      .ok ({ st with bool_home_x := true },
           homePre 253 ++
           [Eff.logMsg "--------------------homing x process started--------------------",
            Eff.s1SetSteps (-100000), Eff.s2SetSteps (-100000)])) ∧
    (home st 252 =
      .ok ({ st with bool_home_z := true },
           homePre 252 ++
           [Eff.logMsg "--------------------homing z process started--------------------",
            Eff.s3DriveForward])) ∧
    (home st 248 = .ok (st, homePre 248 ++ [Eff.logMsg "homing finished"])) ∧
    (home st 251 =
      .ok ({ st with bool_home_z := true },
           homePre 251 ++
           [Eff.print "only z triggered but not homed, driving backwards",
            Eff.s3SetSteps (-21000)])) ∧
    (port ≠ 255 → port ≠ 253 → port ≠ 252 → port ≠ 248 → port ≠ 251 →
      home st port =
        .ok (st, homePre port ++ [Eff.print "should home, but nothing applies"])) := by
  refine ⟨?_, ?_, ?_, ?_, ?_, ?_⟩
  · simp [home, home_guard_ok]
  · simp [home, home_guard_ok]
  · simp [home, home_guard_ok]
  · simp [home, home_guard_ok]
  · simp [home, home_guard_ok]
  · intro h1 h2 h3 h4 h5
    simp [home, home_guard_ok, h1, h2, h3, h4, h5]

/-- Witness for `home_mask_dispatch`: the unrecognized mask 250 leaves the
state unchanged. -/
theorem home_mask_dispatch_witness :
    home baseSt 250 =
      .ok (baseSt, homePre 250 ++ [Eff.print "should home, but nothing applies"]) :=
  (home_mask_dispatch baseSt 250).2.2.2.2.2
    (by decide) (by decide) (by decide) (by decide) (by decide)

/-- Claim C8: with status `measuring` and at least one outstanding
`goto_queue` task, (a) dequeuing the sentinel `'end'` makes the worker drive
the stage toward the fixed park position `[0.2, 0.2]`, join both axis
barriers, and terminate the loop without processing further entries — and the
resulting effect trace contains no measurement; (b) dequeuing a `None` entry
logs `item is None`, completes the queue task, and continues the loop on the
remaining entries without aborting. -/
theorem worker_end_and_none (st : MState) (rest : List GItem)
    (hs : st.status = PyVal.str "measuring")
    (hq : 1 ≤ st.goto_queue.unfinished) :
    (worker st (.endI :: rest) =
      .ok ({ st with s1_queue := st.s1_queue.put, s2_queue := st.s2_queue.put,
                     goto_queue := ⟨st.goto_queue.items, st.goto_queue.unfinished - 1⟩ },
           [Eff.s1SetSteps (pyInt (step_pos_1 (1/5) (1/5) - st.s1_pos)),
            Eff.s2SetSteps (pyInt (step_pos_2 (1/5) (1/5) - st.s2_pos)),
            Eff.s1Join, Eff.s2Join])) ∧
    ([Eff.s1SetSteps (pyInt (step_pos_1 (1/5) (1/5) - st.s1_pos)),
      Eff.s2SetSteps (pyInt (step_pos_2 (1/5) (1/5) - st.s2_pos)),
      Eff.s1Join, Eff.s2Join].filter measureCmd = []) ∧
    (worker st (.noneI :: rest) =
      (worker_loop { st with
          goto_queue := ⟨st.goto_queue.items, st.goto_queue.unfinished - 1⟩ } rest).map
        (fun p => (p.1, Eff.logMsg "item is None" :: p.2))) := by
  have htd : st.goto_queue.task_done =
      .ok ⟨st.goto_queue.items, st.goto_queue.unfinished - 1⟩ := by
    unfold PyQueue.task_done
    rw [if_neg (by omega)]
  refine ⟨?_, rfl, ?_⟩
  · simp [worker, worker_loop, worker_item, goto_position_inqueue, hs, htd]
  · simp only [worker, hs, if_pos, worker_loop, worker_item, htd]
    cases hw : worker_loop { st with status := PyVal.str "measuring", goto_queue := ⟨st.goto_queue.items, st.goto_queue.unfinished - 1⟩ } rest with
    | error e => simp [Except.map, hw]
    | ok p => simp [Except.map, hw]

/-- Witness for `worker_end_and_none`: the sentinel at a concrete mid-scan
state parks the stage at `[0.2, 0.2]` and joins both axis barriers. -/
theorem worker_end_and_none_witness :
    worker scanSt [GItem.endI] =
      .ok ({ scanSt with s1_queue := scanSt.s1_queue.put, s2_queue := scanSt.s2_queue.put, goto_queue := ⟨scanSt.goto_queue.items, scanSt.goto_queue.unfinished - 1⟩ },
           [Eff.s1SetSteps (pyInt (step_pos_1 (1/5) (1/5) - scanSt.s1_pos)),
            Eff.s2SetSteps (pyInt (step_pos_2 (1/5) (1/5) - scanSt.s2_pos)),
            Eff.s1Join, Eff.s2Join]) :=
  (worker_end_and_none scanSt [] rfl (by decide)).1

/-- Helper for the barrier contract: a well-parenthesized operation sequence
runs without error and leaves the counters at their exact arithmetic values. -/
theorem runOps_ok_of (ops : List BOp) : ∀ q : PyQueue,
    (∀ p t, p ++ t = ops → (countR p : Int) ≤ countA p + q.unfinished) →
    runOps ops q = .ok ⟨q.items + countA ops, q.unfinished + countA ops - countR ops⟩ := by
  induction ops with
  | nil =>
    intro q _
    simp [runOps, countA, countR]
  | cons op rest ih =>
    intro q hpre
    cases op with
    | acquire =>
      rw [show runOps (BOp.acquire :: rest) q = runOps rest q.put from rfl]
      rw [ih q.put ?_]
      · have hA : countA (BOp.acquire :: rest) = countA rest + 1 := by
          simp [countA, List.count_cons]
        have hR : countR (BOp.acquire :: rest) = countR rest := by
          simp [countR, List.count_cons]
        simp only [PyQueue.put, hA, hR, Except.ok.injEq, PyQueue.mk.injEq, emptyQ]
        constructor
        · omega
        · push_cast; ring
      · intro p t hpt
        have h2 := hpre (BOp.acquire :: p) t (by rw [List.cons_append, hpt])
        have hA : countA (BOp.acquire :: p) = countA p + 1 := by
          simp [countA, List.count_cons]
        have hR : countR (BOp.acquire :: p) = countR p := by
          simp [countR, List.count_cons]
        rw [hA, hR] at h2
        simp only [PyQueue.put]
        push_cast at h2 ⊢
        omega
    | release =>
      have h1 := hpre [BOp.release] rest rfl
      have hc : (countR [BOp.release] : Int) = 1 ∧ (countA [BOp.release] : Int) = 0 := by
        constructor <;> simp [countR, countA]
      have hu : 1 ≤ q.unfinished := by omega
      have htd : q.task_done = .ok ⟨q.items, q.unfinished - 1⟩ := by
        unfold PyQueue.task_done
        rw [if_neg (by omega)]
      rw [show runOps (BOp.release :: rest) q =
            (match q.task_done with
             | .error e => .error e
             | .ok q1 => runOps rest q1) from rfl, htd]
      show runOps rest ⟨q.items, q.unfinished - 1⟩ = _
      rw [ih ⟨q.items, q.unfinished - 1⟩ ?_]
      · have hA : countA (BOp.release :: rest) = countA rest := by
          simp [countA, List.count_cons]
        have hR : countR (BOp.release :: rest) = countR rest + 1 := by
          simp [countR, List.count_cons]
        simp only [hA, hR, Except.ok.injEq, PyQueue.mk.injEq]
        constructor
        · trivial
        · push_cast; ring
      · intro p t hpt
        have h2 := hpre (BOp.release :: p) t (by rw [List.cons_append, hpt])
        have hA : countA (BOp.release :: p) = countA p := by
          simp [countA, List.count_cons]
        have hR : countR (BOp.release :: p) = countR p + 1 := by
          simp [countR, List.count_cons]
        rw [hA, hR] at h2
        push_cast at h2 ⊢
        omega

/-- Helper for the barrier contract: a sequence with a prefix that releases
more than was acquired (relative to the starting count) fails fast. -/
theorem runOps_error_of (ops : List BOp) : ∀ q : PyQueue, 0 ≤ q.unfinished →
    (∃ p t, p ++ t = ops ∧ (countA p : Int) + q.unfinished < countR p) →
    ∃ msg, runOps ops q = .error msg := by
  induction ops with
  | nil =>
    intro q h0 ⟨p, t, hpt, hlt⟩
    have hp : p = [] := (List.append_eq_nil.mp hpt).1
    subst hp
    simp [countA, countR] at hlt
    omega
  | cons op rest ih =>
    intro q h0 ⟨p, t, hpt, hlt⟩
    cases p with
    | nil =>
      simp [countA, countR] at hlt
      omega
    | cons p0 ps =>
      rw [List.cons_append] at hpt
      have hop : p0 = op := (List.cons.injEq _ _ _ _ ▸ hpt).1
      have hps : ps ++ t = rest := (List.cons.injEq _ _ _ _ ▸ hpt).2
      subst hop
      cases p0 with
      | acquire =>
        have hA : countA (BOp.acquire :: ps) = countA ps + 1 := by
          simp [countA, List.count_cons]
        have hR : countR (BOp.acquire :: ps) = countR ps := by
          simp [countR, List.count_cons]
        rw [hA, hR] at hlt
        rw [show runOps (BOp.acquire :: rest) q = runOps rest q.put from rfl]
        refine ih q.put (by simp [PyQueue.put]; omega) ⟨ps, t, hps, ?_⟩
        simp only [PyQueue.put]
        push_cast at hlt ⊢
        omega
      | release =>
        have hA : countA (BOp.release :: ps) = countA ps := by
          simp [countA, List.count_cons]
        have hR : countR (BOp.release :: ps) = countR ps + 1 := by
          simp [countR, List.count_cons]
        rw [hA, hR] at hlt
        rw [show runOps (BOp.release :: rest) q =
              (match q.task_done with
               | .error e => .error e
               | .ok q1 => runOps rest q1) from rfl]
        by_cases hq : q.unfinished - 1 < 0
        · refine ⟨"task_done() called too many times", ?_⟩
          unfold PyQueue.task_done
          rw [if_pos hq]
        · have htd : q.task_done = .ok ⟨q.items, q.unfinished - 1⟩ := by
            unfold PyQueue.task_done
            rw [if_neg hq]
          rw [htd]
          show ∃ msg, runOps rest ⟨q.items, q.unfinished - 1⟩ = .error msg
          refine ih ⟨q.items, q.unfinished - 1⟩ (by simp; omega) ⟨ps, t, hps, ?_⟩
          push_cast at hlt ⊢
          omega

/-- Claim C6: for each axis barrier (an axis queue with producer `put` in
`goto_position_inqueue` and callback `task_done` in `s1arrived`/`s2arrived`),
any operation sequence in which some prefix releases more than was acquired
fails fast with `ValueError` rather than driving the count negative; a
well-parenthesized sequence leaves the outstanding count at the non-negative
value `acquires - releases`, and `join` returns exactly when that count is
zero. -/
theorem barrier_contract (ops : List BOp) :
    ((∀ p t, p ++ t = ops → countR p ≤ countA p) →
      runOps ops emptyQ = .ok ⟨countA ops, (countA ops : Int) - countR ops⟩ ∧
      0 ≤ (countA ops : Int) - countR ops ∧
      (PyQueue.join_returns ⟨countA ops, (countA ops : Int) - countR ops⟩ ↔
        countA ops = countR ops)) ∧
    ((∃ p t, p ++ t = ops ∧ countA p < countR p) →
      ∃ msg, runOps ops emptyQ = .error msg) := by
  constructor
  · intro hpre
    have hops : countR ops ≤ countA ops := hpre ops [] (by simp)
    refine ⟨?_, by omega, ?_⟩
    · have h := runOps_ok_of ops emptyQ ?_
      · rw [h]
        simp only [emptyQ, Except.ok.injEq, PyQueue.mk.injEq]
        constructor
        · omega
        · ring
      · intro p t hpt
        have := hpre p t hpt
        simp only [emptyQ]
        omega
    · unfold PyQueue.join_returns
      show (countA ops : Int) - countR ops = 0 ↔ countA ops = countR ops
      omega
  · intro ⟨p, t, hpt, hlt⟩
    refine runOps_error_of ops emptyQ (by simp [emptyQ]) ⟨p, t, hpt, ?_⟩
    simp only [emptyQ]
    omega

/-- Witness for `barrier_contract`: one acquire followed by two releases
fails fast. -/
theorem barrier_contract_witness :
    ∃ msg, runOps [BOp.acquire, BOp.release, BOp.release] emptyQ = .error msg :=
  (barrier_contract [BOp.acquire, BOp.release, BOp.release]).2
    ⟨[BOp.acquire, BOp.release, BOp.release], [], by simp, by decide⟩

/-- Length of a `row_pts` block. -/
theorem row_pts_length (k : Nat) : ∀ r t d : ℚ, (row_pts k r t d).length = k := by
  induction k with
  | zero => intro r t d; rfl
  | succ k ih =>
    intro r t d
    simp [row_pts, ih]

/-- Element `i` of a `row_pts` block. -/
theorem row_pts_getElem (k : Nat) : ∀ (r t d : ℚ) (i : Nat) (h : i < (row_pts k r t d).length),
    (row_pts k r t d)[i] = (r + ((i : ℚ) + 1) * d, t) := by
  induction k with
  | zero => intro r t d i h; simp [row_pts_length] at h
  | succ k ih =>
    intro r t d i h
    cases i with
    | zero => simp [row_pts]
    | succ i =>
      have hlt : i < (row_pts k (r + d) t d).length := by
        rw [row_pts_length]
        rw [row_pts_length] at h
        omega
      rw [show (row_pts (k+1) r t d)[i+1] = (row_pts k (r + d) t d)[i] from by
            simp [row_pts]]
      rw [ih (r + d) t d i hlt]
      simp only [Prod.mk.injEq, and_true]
      push_cast
      ring

/-- Representation of `row_pts` as a map over `List.range`. -/
theorem row_pts_eq_map (k : Nat) (r t d : ℚ) :
    row_pts k r t d = (List.range k).map (fun (j : ℕ) => (r + ((j : ℚ) + 1) * d, t)) := by
  refine List.ext_getElem ?_ ?_
  · rw [row_pts_length]
    simp only [List.length_map, List.length_range]
  · intro i h1 h2
    rw [row_pts_getElem k r t d i h1]
    simp only [List.getElem_map, List.getElem_range]

/-- Closed form of the inner forward loop: it advances `r` by `k` steps of
`spacing` and appends the `k` targets after the current one. -/
theorem fwd_inner_eq (k : Nat) : ∀ (r t : ℚ) (plan : List Pt),
    fwd_inner k r t plan = (r + (k : ℚ) * spacing, plan ++ row_pts k r t spacing) := by
  induction k with
  | zero => intro r t plan; simp [fwd_inner, row_pts]
  | succ k ih =>
    intro r t plan
    rw [show fwd_inner (k+1) r t plan =
          fwd_inner k (r + spacing) t (put_goto_position plan (r + spacing) t) from rfl, ih]
    simp only [Prod.mk.injEq, put_goto_position, row_pts, List.append_assoc,
               List.singleton_append, and_true]
    push_cast
    ring

/-- Closed form of the inner reverse loop. -/
theorem rev_inner_eq (k : Nat) : ∀ (r t : ℚ) (plan : List Pt),
    rev_inner k r t plan = (r - (k : ℚ) * spacing, plan ++ row_pts k r t (-spacing)) := by
  induction k with
  | zero => intro r t plan; simp [rev_inner, row_pts]
  | succ k ih =>
    intro r t plan
    rw [show rev_inner (k+1) r t plan =
          rev_inner k (r - spacing) t (put_goto_position plan (r - spacing) t) from rfl, ih]
    simp only [Prod.mk.injEq, put_goto_position, row_pts, List.append_assoc,
               List.singleton_append]
    constructor
    · push_cast; ring
    · rw [show r + -spacing = r - spacing from by ring]

/-- A row starting at `(c, t)` followed by `m` further steps of `d` is a map
over `List.range (m+1)`. -/
theorem cons_row_pts (m : Nat) (c t d : ℚ) :
    (c, t) :: row_pts m c t d =
      (List.range (m+1)).map (fun (j : ℕ) => (c + (j : ℚ) * d, t)) := by
  refine List.ext_getElem ?_ ?_
  · simp [row_pts_length]
  · intro i h1 h2
    cases i with
    | zero => simp
    | succ i =>
      have hlt : i < (row_pts m c t d).length := by
        simp only [List.length_cons] at h1
        omega
      rw [show ((c, t) :: row_pts m c t d)[i+1] = (row_pts m c t d)[i] from by
            simp]
      rw [row_pts_getElem m c t d i hlt]
      simp only [List.getElem_map, List.getElem_range, Prod.mk.injEq, and_true]
      push_cast
      ring

/-- Representation of `rowF` as a head plus `row_pts` tail. -/
theorem rowF_cons (c t : ℚ) (m : Nat) :
    rowF c t (m+1) = (c, t) :: row_pts m c t spacing :=
  (cons_row_pts m c t spacing).symm

/-- Representation of `rowR` as a head plus `row_pts` tail. -/
theorem rowR_cons (c t : ℚ) (m : Nat) :
    rowR c t (m+1) = (c, t) :: row_pts m c t (-spacing) := by
  rw [cons_row_pts m c t (-spacing)]
  refine List.map_congr_left ?_
  intro j hj
  simp only [rowR, Prod.mk.injEq, and_true]
  ring

/-- Closed form of one outer-loop iteration for grid size `m + 1`: the final
`r` is back at the row start, `t` has advanced by two rows, and a forward and
a reversed row have been appended. -/
theorem double_row_eq (x0 : ℚ) (m : Nat) (t : ℚ) (plan : List Pt) :
    double_row x0 (m+1) t plan =
      (spacing + 195/1000 + x0, t + spacing + spacing,
       plan ++ pass_rows x0 t m) := by
  unfold double_row
  simp only [Nat.add_sub_cancel]
  rw [fwd_inner_eq]
  simp only [put_goto_position]
  rw [rev_inner_eq]
  simp only [Prod.mk.injEq, pass_rows]
  refine ⟨by ring, trivial, ?_⟩
  rw [rowF_cons, rowR_cons]
  simp [List.append_assoc]

/-- Closed form of the outer loop for grid size `m + 1`: after `k` iterations
the local `r` is assigned iff `k > 0`, `t` has advanced `2k` spacings, and
`k` double rows have been appended. -/
theorem outer_loop_eq (x0 : ℚ) (m : Nat) (k : Nat) :
    ∀ (ro : Option ℚ) (t : ℚ) (plan : List Pt),
    outer_loop x0 (m+1) k (ro, t, plan) =
      ((if k = 0 then ro else some (spacing + 195/1000 + x0)),
       t + (k : ℚ) * (2 * spacing),
       plan ++ (List.range k).flatMap
         (fun (i : ℕ) => pass_rows x0 (t + (i : ℚ) * (2 * spacing)) m)) := by
  induction k with
  | zero =>
    intro ro t plan
    simp [outer_loop]
  | succ k ih =>
    intro ro t plan
    rw [show outer_loop x0 (m+1) (k+1) (ro, t, plan) =
          outer_loop x0 (m+1) k
            (some (double_row x0 (m+1) t plan).1,
             (double_row x0 (m+1) t plan).2.1,
             (double_row x0 (m+1) t plan).2.2) from rfl]
    rw [double_row_eq]
    rw [ih]
    simp only [Prod.mk.injEq]
    refine ⟨?_, ?_, ?_⟩
    · cases k with
      | zero => simp
      | succ k => simp
    · push_cast; ring
    · rw [List.range_succ_eq_map, List.flatMap_cons, List.flatMap_map]
      simp only [Nat.cast_zero, zero_mul, add_zero, List.append_assoc]
      congr 1
      congr 1
      refine List.flatMap_congr ?_
      intro i hi
      rw [Nat.cast_succ]
      rw [show t + spacing + spacing + (i : ℚ) * (2 * spacing) =
            t + ((i : ℚ) + 1) * (2 * spacing) from by ring]

/-- An even-indexed serpentine row is a forward row. -/
theorem serp_row_even (x0 y0 : ℚ) (N i : Nat) (h : i % 2 = 0) :
    serp_row x0 y0 N i = rowF (x0 + 585/1000) (row_y y0 i) N := by
  unfold serp_row
  rw [if_pos h]
  unfold xs_fwd rowF
  rw [List.map_map]
  rfl

/-- An odd-indexed serpentine row (the reverse of the forward x-sequence) is
a reversed row starting at the top x. -/
theorem serp_row_odd (x0 y0 : ℚ) (m i : Nat) (h : i % 2 = 1) :
    serp_row x0 y0 (m+1) i =
      rowR (x0 + 585/1000 + (m : ℚ) * spacing) (row_y y0 i) (m+1) := by
  unfold serp_row
  rw [if_neg (by omega)]
  refine List.ext_getElem ?_ ?_
  · simp [xs_fwd, rowR]
  · intro j h1 h2
    have hj : j < m + 1 := by
      simpa [xs_fwd] using h1
    have hj2 : m + 1 - 1 - j < m + 1 := by omega
    rw [List.getElem_map, List.getElem_reverse]
    simp only [xs_fwd, rowR, List.getElem_map, List.getElem_range, List.length_map,
               List.length_range]
    simp only [Prod.mk.injEq, and_true]
    have hcast : ((m + 1 - 1 - j : ℕ) : ℚ) = (m : ℚ) - (j : ℚ) := by
      have : m + 1 - 1 - j = m - j := by omega
      rw [this]
      push_cast [Nat.cast_sub (by omega : j ≤ m)]
      ring
    rw [hcast]
    ring

/-- One outer-loop pass, entered at `t = 0.195 + y0 + i * 2 * 0.39`, appends
exactly serpentine rows `2i` and `2i + 1`. -/
theorem pass_rows_serp (x0 y0 : ℚ) (m i : Nat) :
    pass_rows x0 (195/1000 + y0 + (i : ℚ) * (2 * spacing)) m =
      serp_row x0 y0 (m+1) (2*i) ++ serp_row x0 y0 (m+1) (2*i+1) := by
  rw [serp_row_even x0 y0 (m+1) (2*i) (by omega),
      serp_row_odd x0 y0 m (2*i+1) (by omega)]
  unfold pass_rows
  rw [show spacing + 195/1000 + x0 = x0 + 585/1000 from by
        simp only [spacing]; ring]
  rw [show 195/1000 + y0 + (i : ℚ) * (2 * spacing) + spacing + spacing =
        row_y y0 (2*i+1) from by
        simp only [row_y, spacing]; push_cast; ring]
  rw [show 195/1000 + y0 + (i : ℚ) * (2 * spacing) + spacing =
        row_y y0 (2*i) from by
        simp only [row_y, spacing]; push_cast; ring]

/-- Splitting a `flatMap` over `range (2q)` into `q` pairs of rows. -/
theorem range_two_mul_flatMap {β : Type} (q : Nat) (f : Nat → List β) :
    (List.range (2*q)).flatMap f =
      (List.range q).flatMap (fun i => f (2*i) ++ f (2*i+1)) := by
  induction q with
  | zero => simp
  | succ q ih =>
    rw [show 2 * (q+1) = (2*q + 1) + 1 from by ring]
    rw [List.range_succ, List.range_succ, List.flatMap_append, List.flatMap_append, ih]
    rw [List.range_succ, List.flatMap_append]
    simp [List.append_assoc]

/-- Every serpentine row has exactly `N` targets. -/
theorem serp_row_length (x0 y0 : ℚ) (N i : Nat) : (serp_row x0 y0 N i).length = N := by
  unfold serp_row
  split <;> simp [xs_fwd]

/-- The serpentine plan has exactly `N * N` targets. -/
theorem serp_plan_length (N : Nat) (x0 y0 : ℚ) :
    (serp_plan N x0 y0).length = N * N := by
  unfold serp_plan
  rw [List.length_flatMap]
  have hmap : List.map (List.length ∘ fun i => serp_row x0 y0 N i) (List.range N) =
      List.map (fun (_ : ℕ) => N) (List.range N) := by
    refine List.map_congr_left ?_
    intro i hi
    simp [serp_row_length]
  rw [hmap, List.map_const', List.length_range, List.sum_replicate, smul_eq_mul]

/-- Evaluation of the plan block for an even grid size `m + 1 = 2q`. -/
theorem start_plan_even (m q : Nat) (x0 y0 : ℚ) (hq : m + 1 = 2 * q) :
    start_measurement_plan (m+1) x0 y0 =
      some ((List.range q).flatMap
        (fun (i : ℕ) => pass_rows x0 (195/1000 + y0 + (i : ℚ) * (2 * spacing)) m)) := by
  have hdiv : (m+1) / 2 = q := by omega
  have hmod : (m+1) % 2 = 0 := by omega
  simp only [start_measurement_plan]
  rw [hdiv, hmod, outer_loop_eq]
  simp

/-- Evaluation of the plan block for an odd grid size `m + 1 = 2q + 1`,
`q ≥ 1`: the outer loop ran, `r` is assigned, and the extra forward row is
appended. -/
theorem start_plan_odd (m q : Nat) (x0 y0 : ℚ) (hq : m + 1 = 2 * q + 1)
    (hq1 : 1 ≤ q) :
    start_measurement_plan (m+1) x0 y0 =
      some (((List.range q).flatMap
        (fun (i : ℕ) => pass_rows x0 (195/1000 + y0 + (i : ℚ) * (2 * spacing)) m)) ++
        rowF (spacing + 195/1000 + x0)
          (195/1000 + y0 + (q : ℚ) * (2 * spacing) + spacing) (m+1)) := by
  have hdiv : (m+1) / 2 = q := by omega
  have hmod : (m+1) % 2 = 1 := by omega
  simp only [start_measurement_plan]
  rw [hdiv, hmod, outer_loop_eq]
  rw [if_neg (by omega : ¬ q = 0)]
  simp only [put_goto_position, Nat.add_sub_cancel, if_pos]
  rw [fwd_inner_eq]
  rw [rowF_cons]
  simp [List.append_assoc]

/-- Claim C1 (amended to `N ≥ 2`): the scan-plan block of `start_measurement`
enqueues exactly the `N²`-target serpentine plan: row `i` sits at
`y = y0 + 1.5·0.39 + i·0.39` (row 0 at `y0 + 1.5·0.39`), every even-indexed
row is the forward x-sequence starting at `x0 + 1.5·0.39` and increasing in
steps of `0.39`, and every odd-indexed row is its exact reverse. -/
theorem scan_plan_serpentine (N : Nat) (x0 y0 : ℚ) (h : 2 ≤ N) :
    start_measurement_plan N x0 y0 = some (serp_plan N x0 y0) ∧
    (serp_plan N x0 y0).length = N * N ∧
    row_y y0 0 = y0 + (3/2) * (39/100) := by
  refine ⟨?_, serp_plan_length N x0 y0, by simp only [row_y, spacing]; push_cast; ring⟩
  obtain ⟨m, rfl⟩ : ∃ m, N = m + 1 := ⟨N - 1, by omega⟩
  rcases Nat.even_or_odd (m+1) with ⟨q, hqq⟩ | ⟨q, hqq⟩
  · have hq2 : m + 1 = 2 * q := by omega
    have hq1 : 1 ≤ q := by omega
    rw [start_plan_even m q x0 y0 hq2]
    congr 1
    rw [List.flatMap_congr (fun i _ => pass_rows_serp x0 y0 m i)]
    rw [← range_two_mul_flatMap q (fun i => serp_row x0 y0 (m+1) i)]
    unfold serp_plan
    rw [← hq2]
  · have hq1 : 1 ≤ q := by omega
    rw [start_plan_odd m q x0 y0 hqq hq1]
    congr 1
    rw [List.flatMap_congr (fun i _ => pass_rows_serp x0 y0 m i)]
    rw [← range_two_mul_flatMap q (fun i => serp_row x0 y0 (m+1) i)]
    unfold serp_plan
    rw [show m + 1 = 2*q + 1 from hqq]
    rw [List.range_succ, List.flatMap_append]
    simp only [List.flatMap_cons, List.flatMap_nil, List.append_nil]
    congr 1
    rw [serp_row_even x0 y0 (2*q+1) (2*q) (by omega)]
    rw [show spacing + 195/1000 + x0 = x0 + 585/1000 from by
          simp only [spacing]; ring]
    rw [show 195/1000 + y0 + (q : ℚ) * (2 * spacing) + spacing =
          row_y y0 (2*q) from by
          simp only [row_y, spacing]; push_cast; ring]

/-- Claim C1 (counterexample at `N = 1`): the outer loop runs zero times, so
the odd-size branch reads the never-assigned local `r`
(`UnboundLocalError` in Python) — no plan of length `1² = 1` is produced. -/
theorem scan_plan_n1_counterexample : start_measurement_plan 1 0 0 = none := by
  rfl

/-- Witness for `scan_plan_serpentine` at `N = 2`. -/
theorem scan_plan_serpentine_witness :
    start_measurement_plan 2 0 0 = some (serp_plan 2 0 0) ∧
    (serp_plan 2 0 0).length = 2 * 2 :=
  ⟨(scan_plan_serpentine 2 0 0 (by norm_num)).1,
   (scan_plan_serpentine 2 0 0 (by norm_num)).2.1⟩
